import Mathlib

/-!
Verification of the plant-disease image-analysis pipeline.

This file is a shallow embedding of the computational core of the
repository:

* `src/src/utils/imageAnalysis.ts` — the `PlantImageAnalyzer` class:
  `detectBlackSpots`, `assessDamage`, `calculateHealthScore`,
  `assessImageQuality`, `determineOverallCondition`, `assessPlantHealth`;
* `src/src/pages/DiseaseScanner.tsx` — the `selectDiseaseBasedOnAnalysis`
  cascade over the static `comprehensiveDiseases` table.

Modelling conventions:

* A decoded bitmap (`ImageData`) is a width, a height and a row-major
  pixel function; channel samples are natural numbers (entries of a
  `Uint8ClampedArray`).  The alpha channel is never read by the code and
  is omitted.
* JavaScript number arithmetic on these small integer-derived values is
  modelled exactly by the rationals `ℚ`; `Math.round` is Mathlib's
  `round` (both round halves up), `Math.ceil` is `Int.ceil`,
  `Math.max`/`Math.min` are `max`/`min`.
* Display-only outputs (recommendation strings, issue lists, timings,
  the pseudo-random confidence draw) that no claim depends on are kept
  only where cheap; the analyzer's numeric pipeline is embedded in full.
-/

/-- One RGBA sample of the decoded bitmap; the alpha channel is unused by
every analysis routine and is omitted. -/
structure Pixel where
  r : ℕ
  g : ℕ
  b : ℕ
deriving Repr, DecidableEq

/-- A decoded bitmap: `width × height` grid of pixels, row-major, as
delivered by `getImageData` (`data.length = 4 * width * height`, so the
pixel at flat index `i < width * height` always exists). -/
structure Img where
  width : ℕ
  height : ℕ
  pix : ℕ → Pixel

/-- `totalPixels = width * height` (imageAnalysis.ts line 181 / 225). -/
def totalPixels (img : Img) : ℕ :=
  img.width * img.height

/-- `brightness = (r + g + b) / 3` (imageAnalysis.ts line 193 / 234). -/
def brightness (p : Pixel) : ℚ :=
  ((p.r : ℚ) + p.g + p.b) / 3

/-- `colorVariation = |r-g| + |g-b| + |b-r|` (imageAnalysis.ts line 194). -/
def colorVariation (p : Pixel) : ℚ :=
  |(p.r : ℚ) - p.g| + |(p.g : ℚ) - p.b| + |(p.b : ℚ) - p.r|

/-- The black-spot pixel test: `brightness < 60 && colorVariation < 30`
(imageAnalysis.ts line 197). -/
def isBlackSpotPixel (p : Pixel) : Prop :=
  brightness p < 60 ∧ colorVariation p < 30

instance (p : Pixel) : Decidable (isBlackSpotPixel p) := by
  unfold isBlackSpotPixel; infer_instance

/-- Tally of pixels passing the black-spot test, over the whole bitmap
(the `blackSpotPixels` counter of `detectBlackSpots`). -/
def blackSpotPixels (img : Img) : ℕ :=
  (List.range (totalPixels img)).countP fun i => decide (isBlackSpotPixel (img.pix i))

/-- `Math.round(x * 100) / 100` — rounding to two decimals, applied to the
reported percentages (imageAnalysis.ts lines 216 and 263). -/
def round2 (q : ℚ) : ℚ :=
  ((round (q * 100) : ℤ) : ℚ) / 100

/-- The unrounded `blackSpotPercentage = (blackSpotPixels / totalPixels) * 100`
of imageAnalysis.ts line 207, before the two-decimal rounding of line 216. -/
def rawBlackSpotPercentage (img : Img) : ℚ :=
  ((blackSpotPixels img : ℚ) / (totalPixels img : ℚ)) * 100

/-- Return shape of `detectBlackSpots` (imageAnalysis.ts lines 213-217). -/
structure BlackSpotStats where
  hasBlackSpots : Bool
  count : ℤ
  percentage : ℚ
deriving Repr, DecidableEq

/-- `detectBlackSpots` (imageAnalysis.ts lines 177-218): the threshold
`hasBlackSpots = blackSpotPercentage > 0.1` is taken on the unrounded
percentage (line 208); the returned `percentage` field is rounded to two
decimals (line 216); `count` is
`hasBlackSpots ? Math.max(1, Math.ceil(blackSpotPixels / (width * 0.02))) : 0`
(lines 211 and 215).  The `potentialSpots` counter of lines 202-204 is dead
(never returned) and is not embedded. -/
def detectBlackSpots (img : Img) : BlackSpotStats :=
  let pct := rawBlackSpotPercentage img
  let has : Bool := decide (pct > 0.1)
  let estimatedSpotCount : ℤ := ⌈(blackSpotPixels img : ℚ) / ((img.width : ℚ) * 0.02)⌉
  { hasBlackSpots := has
    count := if has then max 1 estimatedSpotCount else 0
    percentage := round2 pct }

/-- Damage condition 1, yellowing/chlorosis (imageAnalysis.ts line 238). -/
def isYellowing (p : Pixel) : Prop :=
  (p.r : ℚ) > 180 ∧ (p.g : ℚ) > 150 ∧ (p.b : ℚ) < 100 ∧ brightness p > 150

instance (p : Pixel) : Decidable (isYellowing p) := by
  unfold isYellowing; infer_instance

/-- Damage condition 2, brown spots/necrosis (imageAnalysis.ts line 243). -/
def isBrowning (p : Pixel) : Prop :=
  (p.r : ℚ) > 100 ∧ (p.r : ℚ) < 180 ∧ (p.g : ℚ) > 50 ∧ (p.g : ℚ) < 130 ∧
    (p.b : ℚ) < 80 ∧ brightness p < 150

instance (p : Pixel) : Decidable (isBrowning p) := by
  unfold isBrowning; infer_instance

/-- Damage condition 3, wilting/drying (imageAnalysis.ts line 248). -/
def isWilting (p : Pixel) : Prop :=
  (p.g : ℚ) < p.r * 0.7 ∧ (p.g : ℚ) < p.b * 0.8 ∧ brightness p < 120

instance (p : Pixel) : Decidable (isWilting p) := by
  unfold isWilting; infer_instance

/-- Damage condition 4, white/silver spots (imageAnalysis.ts line 253). -/
def isWhitePatch (p : Pixel) : Prop :=
  brightness p > 200 ∧ |(p.r : ℚ) - p.g| < 20 ∧ |(p.g : ℚ) - p.b| < 20

instance (p : Pixel) : Decidable (isWhitePatch p) := by
  unfold isWhitePatch; infer_instance

/-- How many times one pixel increments the `damagedPixels` counter: the
four `if` statements of imageAnalysis.ts lines 238-255 are independent, so
one pixel can be counted once per matched condition. -/
def damageMatches (p : Pixel) : ℕ :=
  (if isYellowing p then 1 else 0) + (if isBrowning p then 1 else 0) +
    (if isWilting p then 1 else 0) + (if isWhitePatch p then 1 else 0)

/-- The `damagedPixels` counter of `assessDamage` over the whole bitmap. -/
def damagedPixels (img : Img) : ℕ :=
  ((List.range (totalPixels img)).map fun i => damageMatches (img.pix i)).sum

/-- The unrounded `damagePercentage = (damagedPixels / totalPixels) * 100`
of imageAnalysis.ts line 258. -/
def rawDamagePercentage (img : Img) : ℚ :=
  ((damagedPixels img : ℚ) / (totalPixels img : ℚ)) * 100

/-- Return shape of `assessDamage` (imageAnalysis.ts lines 261-264). -/
structure DamageStats where
  hasDamage : Bool
  percentage : ℚ
deriving Repr, DecidableEq

/-- `assessDamage` (imageAnalysis.ts lines 221-265): the threshold
`hasDamage = damagePercentage > 0.5` is taken on the unrounded percentage
(line 259); the returned `percentage` is rounded to two decimals. -/
def assessDamage (img : Img) : DamageStats :=
  { hasDamage := decide (rawDamagePercentage img > 0.5)
    percentage := round2 (rawDamagePercentage img) }

/-- `calculateHealthScore` (imageAnalysis.ts lines 268-287): start at 100,
deduct `min(blackSpots.percentage * 3, 40)` when `hasBlackSpots`, deduct
`min(damage.percentage * 2, 50)` when `hasDamage`, deduct a flat 15 when
`blackSpots.percentage > 5 && damage.percentage > 10`, finally
`Math.max(0, Math.round(healthScore))`. -/
def calculateHealthScore (blackSpots : BlackSpotStats) (damage : DamageStats) : ℤ :=
  let s1 : ℚ := 100
  let s2 : ℚ := if blackSpots.hasBlackSpots then s1 - min (blackSpots.percentage * 3) 40 else s1
  let s3 : ℚ := if damage.hasDamage then s2 - min (damage.percentage * 2) 50 else s2
  let s4 : ℚ := if blackSpots.percentage > 5 ∧ damage.percentage > 10 then s3 - 15 else s3
  max 0 (round s4)

/-- The health score the pipeline reports for one image: `analyzeImage`
(imageAnalysis.ts lines 46-48) feeds the black-spot and damage statistics
of the same bitmap into `calculateHealthScore`. -/
def analyzeHealthScore (img : Img) : ℤ :=
  calculateHealthScore (detectBlackSpots img) (assessDamage img)

/-- The five ordinal condition labels of `ImageAnalysisResult.overallCondition`. -/
inductive Condition where
  | healthy
  | mild_damage
  | moderate_damage
  | severe_damage
  | critical
deriving Repr, DecidableEq

/-- `determineOverallCondition` (imageAnalysis.ts lines 329-341). -/
def determineOverallCondition (healthScore : ℤ) (hasBlackSpots hasDamage : Bool) : Condition :=
  if healthScore ≥ 85 ∧ (!hasBlackSpots) ∧ (!hasDamage) then .healthy
  else if healthScore ≥ 70 then .mild_damage
  else if healthScore ≥ 50 then .moderate_damage
  else if healthScore ≥ 30 then .severe_damage
  else .critical

/-- The five urgency tiers of `PlantHealthAssessment.urgency`. -/
inductive Urgency where
  | none
  | low
  | medium
  | high
  | critical
deriving Repr, DecidableEq

/-- The fields of `ImageAnalysisResult` the downstream classifiers and the
disease selector read.  `detectedIssues`, `imageQuality`, `analysisTime`
and `overallCondition` are never read by `assessPlantHealth` or
`selectDiseaseBasedOnAnalysis` and are left out of the record;
`confidence` is the pseudo-random 90-98 display value of
imageAnalysis.ts line 68, carried as an opaque rational input. -/
structure AnalysisResult where
  hasBlackSpots : Bool
  blackSpotCount : ℤ
  blackSpotPercentage : ℚ
  hasDamage : Bool
  damagePercentage : ℚ
  healthScore : ℤ
  confidence : ℚ
deriving Repr, DecidableEq

/-- Result of `assessPlantHealth`; the four-line recommendation lists are
pure display copy and are elided. -/
structure PlantHealthAssessment where
  isHealthy : Bool
  condition : String
  healthPercentage : ℤ
  urgency : Urgency
deriving Repr, DecidableEq

/-- `assessPlantHealth` (imageAnalysis.ts lines 78-146): the urgency
classifier's five-tier ladder, evaluated in order. -/
def assessPlantHealth (r : AnalysisResult) : PlantHealthAssessment :=
  if r.healthScore ≥ 85 ∧ (!r.hasBlackSpots) ∧ (!r.hasDamage) then
    { isHealthy := true
      condition := "Excellent Health - No Issues Detected"
      healthPercentage := r.healthScore
      urgency := .none }
  else if r.healthScore ≥ 70 ∧ ((!r.hasBlackSpots) ∨ r.blackSpotPercentage < 5) then
    { isHealthy := true
      condition := "Good Health - Minor Issues"
      healthPercentage := r.healthScore
      urgency := .low }
  else if r.healthScore ≥ 50 ∧ (r.blackSpotPercentage < 15 ∨ r.damagePercentage < 20) then
    { isHealthy := false
      condition := "Moderate Issues - Action Needed"
      healthPercentage := r.healthScore
      urgency := .medium }
  else if r.healthScore ≥ 30 ∧ (r.blackSpotPercentage < 30 ∨ r.damagePercentage < 40) then
    { isHealthy := false
      condition := "Severe Disease - Immediate Action Required"
      healthPercentage := r.healthScore
      urgency := .high }
  else
    { isHealthy := false
      condition := "Critical Condition - Emergency Treatment"
      healthPercentage := r.healthScore
      urgency := .critical }

/-- Names of the static `comprehensiveDiseases` table
(DiseaseScanner.tsx lines 219-369), in source order. -/
def comprehensiveDiseaseNames : List String :=
  ["Black Spot Disease", "Powdery Mildew", "Bacterial Leaf Spot",
   "Anthracnose", "Downy Mildew", "Fusarium Wilt"]

/-- `selectDiseaseBasedOnAnalysis` (DiseaseScanner.tsx lines 371-407),
reduced to the selected entry's name and the confidence it is given; the
fourth branch synthesizes the "Healthy Plant" entry with fixed
confidence 0.95. -/
def selectDiseaseBasedOnAnalysis (r : AnalysisResult) : String × ℚ :=
  if r.hasBlackSpots ∧ r.blackSpotPercentage > 2 then
    (comprehensiveDiseaseNames.getD 0 "", min 0.95 (r.confidence / 100))
  else if r.hasDamage ∧ r.damagePercentage > 10 then
    (comprehensiveDiseaseNames.getD 1 "", min 0.88 (r.confidence / 100))
  else if r.healthScore < 60 then
    (comprehensiveDiseaseNames.getD 2 "", min 0.82 (r.confidence / 100))
  else if r.healthScore ≥ 85 then
    ("Healthy Plant", 0.95)
  else
    (comprehensiveDiseaseNames.getD 1 "", min 0.75 (r.confidence / 100))

/-- Grayscale contrast of an interior pixel against its right and below
neighbours (imageAnalysis.ts lines 301-308): the pixel at `(x, y)` has flat
index `y * width + x`, its right neighbour `y * width + x + 1`, its below
neighbour `(y + 1) * width + x`. -/
def contrastAt (img : Img) (x y : ℕ) : ℚ :=
  let current := brightness (img.pix (y * img.width + x))
  let right := brightness (img.pix (y * img.width + x + 1))
  let below := brightness (img.pix ((y + 1) * img.width + x))
  |current - right| + |current - below|

/-- The interior column indices `1 ≤ x < width - 1` scanned by the quality
loop (imageAnalysis.ts line 300). -/
def interiorXs (img : Img) : List ℕ :=
  List.range' 1 (img.width - 2)

/-- The interior row indices `1 ≤ y < height - 1` scanned by the quality
loop (imageAnalysis.ts line 299). -/
def interiorYs (img : Img) : List ℕ :=
  List.range' 1 (img.height - 2)

/-- The `edgePixels` counter of `assessImageQuality`: interior pixels whose
contrast exceeds 30 (imageAnalysis.ts lines 311-313). -/
def edgePixels (img : Img) : ℕ :=
  ((interiorYs img).map fun y =>
    (interiorXs img).countP fun x => decide (contrastAt img x y > 30)).sum

/-- The `totalContrast` accumulator of `assessImageQuality`
(imageAnalysis.ts line 309). -/
def totalContrast (img : Img) : ℚ :=
  ((interiorYs img).map fun y => ((interiorXs img).map fun x => contrastAt img x y).sum).sum

/-- `assessImageQuality` (imageAnalysis.ts lines 290-326):
`sharpness = (edgePixels / (width * height)) * 100`,
`avgContrast = totalContrast / (width * height)`,
`quality = min(50 + min(sharpness * 2, 30) + min(avgContrast / 5, 20), 95)`. -/
def assessImageQuality (img : Img) : ℚ :=
  let sharpness := ((edgePixels img : ℚ) / (totalPixels img : ℚ)) * 100
  let avgContrast := totalContrast img / (totalPixels img : ℚ)
  let qualityScore := 50 + min (sharpness * 2) 30 + min (avgContrast / 5) 20
  min qualityScore 95

/-! ## Concrete bitmaps used as test inputs -/

/-- A uniform mid-gray pixel: matches no black-spot or damage predicate. -/
def grayPixel : Pixel := ⟨128, 128, 128⟩

/-- A pixel matching both the browning and the wilting damage conditions
(r=120, g=55, b=75: brightness 250/3 ≈ 83.3). -/
def dblPixel : Pixel := ⟨120, 55, 75⟩

/-- A pixel matching exactly the yellowing damage condition
(r=230, g=190, b=60: brightness 160). -/
def yellowPixel : Pixel := ⟨230, 190, 60⟩

/-- A pure black pixel: brightness 0, colorVariation 0. -/
def blackPixel : Pixel := ⟨0, 0, 0⟩

/-- 1×1 bitmap whose only pixel is counted twice by the damage tally. -/
def imgDouble : Img := ⟨1, 1, fun _ => dblPixel⟩

/-- 32×30 bitmap with a single black pixel: 1 of 960 pixels is a black-spot
match, so the unrounded percentage is 5/48 ≈ 0.104 — above the 0.1 threshold
but rounding to two decimals as exactly 0.10. -/
def imgRoundBS : Img := ⟨32, 30, fun i => if i = 0 then blackPixel else grayPixel⟩

/-- 199×1 bitmap with a single yellowing pixel: the unrounded damage
percentage is 100/199 ≈ 0.5025 — above the 0.5 threshold but rounding to two
decimals as exactly 0.50. -/
def imgRoundDm : Img := ⟨199, 1, fun i => if i = 0 then yellowPixel else grayPixel⟩

/-- 1×1 uniform mid-gray bitmap: no black-spot and no damage match. -/
def imgGray : Img := ⟨1, 1, fun _ => grayPixel⟩

/-! ## Specification-side definitions

Each `...Spec` definition below is written from the specification's (or the
claim's) own wording, to be compared with the definition embedded from the
source.  The two `...SpecAmended` definitions follow the claim's wording
with one amendment: the boolean presence thresholds are applied to the
unrounded percentage. -/

/-- Condition Classifier as spec §4.3 words it: deterministic thresholds,
evaluated in order, first match wins. -/
def determineOverallConditionSpec (healthScore : ℤ) (hasBlackSpots hasDamage : Bool) :
    Condition :=
  if healthScore ≥ 85 ∧ hasBlackSpots = false ∧ hasDamage = false then .healthy
  else if healthScore ≥ 70 then .mild_damage
  else if healthScore ≥ 50 then .moderate_damage
  else if healthScore ≥ 30 then .severe_damage
  else .critical

/-- Disease Selector as spec §4.4 words it: pure lookup, evaluated in order,
with `analysisConfidence` the 0-100 confidence field of the analysis result. -/
def selectDiseaseSpec (r : AnalysisResult) : String × ℚ :=
  if r.hasBlackSpots = true ∧ r.blackSpotPercentage > 2 then
    ("Black Spot Disease", min 0.95 (r.confidence / 100))
  else if r.hasDamage = true ∧ r.damagePercentage > 10 then
    ("Powdery Mildew", min 0.88 (r.confidence / 100))
  else if r.healthScore < 60 then
    ("Bacterial Leaf Spot", min 0.82 (r.confidence / 100))
  else if r.healthScore ≥ 85 then
    ("Healthy Plant", 0.95)
  else
    ("Powdery Mildew", min 0.75 (r.confidence / 100))

/-- Health Scorer as claim C3 words it: start at 100, deduct
`min(blackSpotPercentage * 3, 40)` when black spots are present, deduct
`min(damagePercentage * 2, 50)` when damage is present, deduct a further
flat 15 when `blackSpotPercentage > 5` and `damagePercentage > 10`, clamp
to `[0, 100]`, round to the nearest integer. -/
def healthScoreSpec (hasBlackSpots : Bool) (blackSpotPercentage : ℚ)
    (hasDamage : Bool) (damagePercentage : ℚ) : ℤ :=
  let afterSpots : ℚ :=
    100 - (if hasBlackSpots then min (blackSpotPercentage * 3) 40 else 0)
  let afterDamage : ℚ :=
    afterSpots - (if hasDamage then min (damagePercentage * 2) 50 else 0)
  let afterCombined : ℚ :=
    afterDamage - (if blackSpotPercentage > 5 ∧ damagePercentage > 10 then 15 else 0)
  round (min (max afterCombined 0) 100)

/-- Black-spot detection as claim C5 words it, amended in one place: the
`hasBlackSpots` threshold is applied to the unrounded percentage
`100 * blackSpotPixelCount / totalPixels` (the reported `percentage` field
is still the two-decimal rounding of that value). -/
def detectBlackSpotsSpecAmended (img : Img) : BlackSpotStats :=
  let blackSpotPixelCount : ℕ :=
    (List.range (img.width * img.height)).countP fun i =>
      decide (((img.pix i).r + (img.pix i).g + (img.pix i).b : ℚ) / 3 < 60 ∧
        |((img.pix i).r : ℚ) - (img.pix i).g| + |((img.pix i).g : ℚ) - (img.pix i).b| +
          |((img.pix i).b : ℚ) - (img.pix i).r| < 30)
  let rawPercentage : ℚ := 100 * blackSpotPixelCount / (img.width * img.height : ℕ)
  let hasSpots : Bool := decide (rawPercentage > 0.1)
  { hasBlackSpots := hasSpots
    count := if hasSpots then max 1 ⌈(blackSpotPixelCount : ℚ) / ((img.width : ℚ) * 0.02)⌉ else 0
    percentage := round2 rawPercentage }

/-- Damage assessment as claim C6 words it, amended in one place: the
`hasDamage` threshold is applied to the unrounded percentage
`100 * damagedPixelTally / totalPixels`.  The tally increments once per
condition matched, over four independent additive conditions. -/
def assessDamageSpecAmended (img : Img) : DamageStats :=
  let conditionsMatched : Pixel → ℕ := fun p =>
    (if (p.r : ℚ) > 180 ∧ (p.g : ℚ) > 150 ∧ (p.b : ℚ) < 100 ∧
        ((p.r : ℚ) + p.g + p.b) / 3 > 150 then 1 else 0) +
    (if (p.r : ℚ) > 100 ∧ (p.r : ℚ) < 180 ∧ (p.g : ℚ) > 50 ∧ (p.g : ℚ) < 130 ∧
        (p.b : ℚ) < 80 ∧ ((p.r : ℚ) + p.g + p.b) / 3 < 150 then 1 else 0) +
    (if (p.g : ℚ) < p.r * 0.7 ∧ (p.g : ℚ) < p.b * 0.8 ∧
        ((p.r : ℚ) + p.g + p.b) / 3 < 120 then 1 else 0) +
    (if ((p.r : ℚ) + p.g + p.b) / 3 > 200 ∧ |(p.r : ℚ) - p.g| < 20 ∧
        |(p.g : ℚ) - p.b| < 20 then 1 else 0)
  let damagedPixelTally : ℕ :=
    ((List.range (img.width * img.height)).map fun i => conditionsMatched (img.pix i)).sum
  let rawPercentage : ℚ := 100 * damagedPixelTally / (img.width * img.height : ℕ)
  { hasDamage := decide (rawPercentage > 0.5)
    percentage := round2 rawPercentage }

/-! ## Analysis-result records used as concrete inputs -/

/-- Scenario C record. -/
def resultScenarioC : AnalysisResult := ⟨true, 2, 3, false, 0, 91, 95⟩

/-- Scenario D record. -/
def resultScenarioD : AnalysisResult := ⟨false, 0, 0, true, 12, 76, 95⟩

/-- Claim C7 record. -/
def resultC7 : AnalysisResult := ⟨true, 1, 5, false, 0, 72, 95⟩

/-- Record showing the converse direction of claim C9 fails. -/
def resultC9 : AnalysisResult := ⟨true, 1, 2, false, 0, 85, 95⟩

/-- Healthy record for the C9 witness. -/
def resultHealthy : AnalysisResult := ⟨false, 0, 0, false, 0, 90, 95⟩

set_option maxRecDepth 4000

/-! ## Helper lemmas -/

/-- `round` on `ℚ` is monotone. -/
theorem round_mono_rat {x y : ℚ} (h : x ≤ y) : round x ≤ round y := by
  rw [round_eq, round_eq]
  exact Int.floor_mono (by linarith)

/-- Two-decimal rounding keeps the interval `[0, n]` for a natural bound. -/
theorem round2_mem {q : ℚ} {n : ℕ} (h0 : 0 ≤ q) (hn : q ≤ (n : ℚ)) :
    0 ≤ round2 q ∧ round2 q ≤ (n : ℚ) := by
  unfold round2
  constructor
  · have h1 : (0 : ℤ) ≤ round (q * 100) := by
      have := round_mono_rat (by linarith : (0 : ℚ) ≤ q * 100)
      simpa using this
    positivity
  · have h1 : round (q * 100) ≤ ((n : ℤ) * 100) := by
      have h2 : q * 100 ≤ (((n : ℤ) * 100 : ℤ) : ℚ) := by push_cast; linarith
      have := round_mono_rat h2
      rwa [round_intCast] at this
    rw [div_le_iff₀ (by norm_num : (0:ℚ) < 100)]
    exact_mod_cast h1

/-- The black-spot tally never exceeds the pixel count. -/
theorem blackSpotPixels_le (img : Img) : blackSpotPixels img ≤ totalPixels img := by
  have := List.countP_le_length (l := List.range (totalPixels img))
    (p := fun i => decide (isBlackSpotPixel (img.pix i)))
  simpa [blackSpotPixels] using this

/-- One pixel increments the damage tally at most twice: the yellowing and
white-patch conditions force brightness above 150, the browning and wilting
conditions force it below 150, so at most one of each pair's side can hold. -/
theorem damageMatches_le_two (p : Pixel) : damageMatches p ≤ 2 := by
  unfold damageMatches
  rcases lt_or_le (brightness p) 150 with h | h
  · have h1 : ¬ isYellowing p := fun hy => absurd hy.2.2.2 (by linarith)
    have h4 : ¬ isWhitePatch p := fun hw => absurd hw.1 (by linarith)
    rw [if_neg h1, if_neg h4]
    split_ifs <;> omega
  · have h2 : ¬ isBrowning p := fun hb => absurd hb.2.2.2.2.2 (by linarith)
    have h3 : ¬ isWilting p := fun hw => absurd hw.2.2 (by linarith)
    rw [if_neg h2, if_neg h3]
    split_ifs <;> omega

/-- The damage tally never exceeds twice the pixel count. -/
theorem damagedPixels_le (img : Img) : damagedPixels img ≤ 2 * totalPixels img := by
  unfold damagedPixels
  have h := List.sum_le_card_nsmul
    ((List.range (totalPixels img)).map fun i => damageMatches (img.pix i)) 2 ?_
  · simpa [Nat.mul_comm] using h
  · intro x hx
    simp only [List.mem_map] at hx
    obtain ⟨i, _, rfl⟩ := hx
    exact damageMatches_le_two _

/-- The unrounded black-spot percentage is nonnegative. -/
theorem rawBlackSpotPercentage_nonneg (img : Img) : 0 ≤ rawBlackSpotPercentage img := by
  unfold rawBlackSpotPercentage
  positivity

/-- The unrounded damage percentage is nonnegative. -/
theorem rawDamagePercentage_nonneg (img : Img) : 0 ≤ rawDamagePercentage img := by
  unfold rawDamagePercentage
  positivity

/-- On a non-empty bitmap the unrounded black-spot percentage is at most 100. -/
theorem rawBlackSpotPercentage_le (img : Img) (h : 0 < totalPixels img) :
    rawBlackSpotPercentage img ≤ 100 := by
  unfold rawBlackSpotPercentage
  have ht : (0 : ℚ) < (totalPixels img : ℚ) := by exact_mod_cast h
  have hc : (blackSpotPixels img : ℚ) ≤ (totalPixels img : ℚ) := by
    exact_mod_cast blackSpotPixels_le img
  have : (blackSpotPixels img : ℚ) / (totalPixels img : ℚ) ≤ 1 :=
    (div_le_one ht).mpr hc
  linarith

/-- On a non-empty bitmap the unrounded damage percentage is at most 200. -/
theorem rawDamagePercentage_le (img : Img) (h : 0 < totalPixels img) :
    rawDamagePercentage img ≤ 200 := by
  unfold rawDamagePercentage
  have ht : (0 : ℚ) < (totalPixels img : ℚ) := by exact_mod_cast h
  have hc : (damagedPixels img : ℚ) ≤ 2 * (totalPixels img : ℚ) := by
    exact_mod_cast damagedPixels_le img
  have : (damagedPixels img : ℚ) / (totalPixels img : ℚ) ≤ 2 := by
    rw [div_le_iff₀ ht]; linarith
  linarith

/-- `Math.max(0, Math.round(s))` agrees with rounding after clamping to
`[0, 100]`, whenever `s ≤ 100`. -/
theorem max_round_eq {s : ℚ} (h : s ≤ 100) :
    max 0 (round s) = round (min (max s 0) 100) := by
  rcases le_or_lt 0 s with h0 | h0
  · rw [max_eq_left h0, min_eq_left h]
    have hr : (0 : ℤ) ≤ round s := by
      have := round_mono_rat h0
      simpa using this
    rw [max_eq_right hr]
  · rw [max_eq_right h0.le, min_eq_left (by norm_num : (0:ℚ) ≤ 100), round_zero]
    have hr : round s ≤ 0 := by
      have := round_mono_rat h0.le
      simpa using this
    rw [max_eq_left hr]

/-- The health score is clamped to `[0, 100]` as soon as the two percentage
inputs are nonnegative (all deductions are then nonnegative). -/
theorem calculateHealthScore_bounds (bs : BlackSpotStats) (d : DamageStats)
    (hbs : 0 ≤ bs.percentage) (hd : 0 ≤ d.percentage) :
    0 ≤ calculateHealthScore bs d ∧ calculateHealthScore bs d ≤ 100 := by
  unfold calculateHealthScore
  have m1 : 0 ≤ min (bs.percentage * 3) 40 := le_min (by positivity) (by norm_num)
  have m2 : 0 ≤ min (d.percentage * 2) 50 := le_min (by positivity) (by norm_num)
  constructor
  · exact le_max_left 0 _
  · have hs : (if bs.percentage > 5 ∧ d.percentage > 10 then
        (if d.hasDamage then
          (if bs.hasBlackSpots then (100:ℚ) - min (bs.percentage * 3) 40 else 100) -
            min (d.percentage * 2) 50
         else (if bs.hasBlackSpots then (100:ℚ) - min (bs.percentage * 3) 40 else 100)) - 15
      else (if d.hasDamage then
          (if bs.hasBlackSpots then (100:ℚ) - min (bs.percentage * 3) 40 else 100) -
            min (d.percentage * 2) 50
         else (if bs.hasBlackSpots then (100:ℚ) - min (bs.percentage * 3) 40 else 100))) ≤ 100 := by
      split_ifs <;> linarith
    have hr := round_mono_rat hs
    rw [show round (100 : ℚ) = 100 by
      rw [show ((100 : ℚ)) = ((100 : ℤ) : ℚ) by norm_num, round_intCast]] at hr
    exact max_le (by norm_num) hr

/-- Nonnegativity of the contrast accumulator. -/
theorem totalContrast_nonneg (img : Img) : 0 ≤ totalContrast img := by
  unfold totalContrast
  apply List.sum_nonneg
  intro x hx
  simp only [List.mem_map] at hx
  obtain ⟨y, _, rfl⟩ := hx
  apply List.sum_nonneg
  intro c hc
  simp only [List.mem_map] at hc
  obtain ⟨x', _, rfl⟩ := hc
  unfold contrastAt
  positivity

/-- Claim C1, counterexample: the reported `damagePercentage` is NOT always
in `[0, 100]` — on the 1×1 bitmap whose pixel matches both the browning and
the wilting damage conditions, the damage tally is 2 out of 1 pixel and the
reported percentage is 200. -/
theorem C1_damage_percentage_exceeds_100 :
    (assessDamage imgDouble).percentage = 200 ∧ ¬((assessDamage imgDouble).percentage ≤ 100) := by
  with_unfolding_all decide

/-- Claim C1, amended: for every bitmap with positive width and height, the
reported `blackSpotPercentage` is in `[0, 100]` and the pipeline's
`healthScore` is in `[0, 100]`, but the reported `damagePercentage` is only
guaranteed to lie in `[0, 200]`: each pixel can be tallied at most twice
(the yellowing and white-patch conditions need brightness above 150, the
browning and wilting conditions below 150). -/
theorem C1_reported_ranges (img : Img) (hw : 0 < img.width) (hh : 0 < img.height) :
    (0 ≤ (detectBlackSpots img).percentage ∧ (detectBlackSpots img).percentage ≤ 100) ∧
    (0 ≤ analyzeHealthScore img ∧ analyzeHealthScore img ≤ 100) ∧
    (0 ≤ (assessDamage img).percentage ∧ (assessDamage img).percentage ≤ 200) := by
  have ht : 0 < totalPixels img := Nat.mul_pos hw hh
  have hbs := round2_mem (rawBlackSpotPercentage_nonneg img)
    (by exact_mod_cast rawBlackSpotPercentage_le img ht : rawBlackSpotPercentage img ≤ ((100:ℕ):ℚ))
  have hdm := round2_mem (rawDamagePercentage_nonneg img)
    (by exact_mod_cast rawDamagePercentage_le img ht : rawDamagePercentage img ≤ ((200:ℕ):ℚ))
  refine ⟨⟨?_, ?_⟩, ?_, ⟨?_, ?_⟩⟩
  · simpa [detectBlackSpots] using hbs.1
  · have := hbs.2; simp only [detectBlackSpots]; exact_mod_cast this
  · exact calculateHealthScore_bounds _ _ (by simpa [detectBlackSpots] using hbs.1)
      (by simpa [assessDamage] using hdm.1)
  · simpa [assessDamage] using hdm.1
  · have := hdm.2; simp only [assessDamage]; exact_mod_cast this

/-- Claim C1 witness: the amended ranges hold at the 1×1 mid-gray bitmap. -/
theorem C1_reported_ranges_witness :
    (0 ≤ (detectBlackSpots imgGray).percentage ∧ (detectBlackSpots imgGray).percentage ≤ 100) ∧
    (0 ≤ analyzeHealthScore imgGray ∧ analyzeHealthScore imgGray ≤ 100) ∧
    (0 ≤ (assessDamage imgGray).percentage ∧ (assessDamage imgGray).percentage ≤ 200) :=
  C1_reported_ranges imgGray (by decide) (by decide)

/-- Claim C3: for every pair of (nonnegative-percentage) black-spot and
damage statistics, `calculateHealthScore` equals the claim's formula — start
at 100, deduct `min(blackSpotPercentage * 3, 40)` when black spots are
present, deduct `min(damagePercentage * 2, 50)` when damage is present,
deduct a further flat 15 when `blackSpotPercentage > 5` and
`damagePercentage > 10`, clamp to `[0, 100]`, round to the nearest integer;
the universally quantified `count` argument shows no other input affects
the score. -/
theorem C3_health_scorer (hasBS : Bool) (count : ℤ) (bsp : ℚ) (hasDm : Bool) (dp : ℚ)
    (hbsp : 0 ≤ bsp) (hdp : 0 ≤ dp) :
    calculateHealthScore ⟨hasBS, count, bsp⟩ ⟨hasDm, dp⟩ = healthScoreSpec hasBS bsp hasDm dp := by
  have m1 : 0 ≤ min (bsp * 3) 40 := le_min (by positivity) (by norm_num)
  have m2 : 0 ≤ min (dp * 2) 50 := le_min (by positivity) (by norm_num)
  simp only [calculateHealthScore, healthScoreSpec]
  split_ifs <;> (rw [max_round_eq (by linarith)]) <;> ring_nf

/-- Claim C3 witness: the scorer matches the spec formula at
`blackSpotPercentage = 3`, `damagePercentage = 12`, both flags set. -/
theorem C3_health_scorer_witness :
    0 ≤ (3:ℚ) ∧ 0 ≤ (12:ℚ) ∧
    calculateHealthScore ⟨true, 1, 3⟩ ⟨true, 12⟩ = healthScoreSpec true 3 true 12 :=
  ⟨by norm_num, by norm_num, C3_health_scorer true 1 3 true 12 (by norm_num) (by norm_num)⟩

/-- Claim C4: `overallCondition` is a deterministic function of
`healthScore`, `hasBlackSpots` and `hasDamage`, computed by the first-match
threshold ladder healthy (`≥ 85` and no flags) / mild_damage (`≥ 70`) /
moderate_damage (`≥ 50`) / severe_damage (`≥ 30`) / critical. -/
theorem C4_condition_classifier (healthScore : ℤ) (hasBlackSpots hasDamage : Bool) :
    determineOverallCondition healthScore hasBlackSpots hasDamage =
      determineOverallConditionSpec healthScore hasBlackSpots hasDamage := by
  cases hasBlackSpots <;> cases hasDamage <;>
    simp [determineOverallCondition, determineOverallConditionSpec]

/-- Claim C2: the Disease Selector is a pure in-order lookup — it agrees
everywhere with the spec's five-branch cascade (Black Spot Disease at
`hasBlackSpots ∧ blackSpotPercentage > 2` with confidence
`min(0.95, confidence/100)`; else Powdery Mildew at
`hasDamage ∧ damagePercentage > 10` with `min(0.88, ·)`; else Bacterial Leaf
Spot at `healthScore < 60` with `min(0.82, ·)`; else the synthesized Healthy
Plant entry at `healthScore ≥ 85` with fixed 0.95; else Powdery Mildew with
`min(0.75, ·)`) — and in particular a result with `blackSpotPercentage = 3`
and no damage selects Black Spot Disease, and one with no black spots and
`damagePercentage = 12` selects Powdery Mildew. -/
theorem C2_disease_selector :
    (∀ r : AnalysisResult, selectDiseaseBasedOnAnalysis r = selectDiseaseSpec r) ∧
    (selectDiseaseBasedOnAnalysis resultScenarioC).1 = "Black Spot Disease" ∧
    (selectDiseaseBasedOnAnalysis resultScenarioD).1 = "Powdery Mildew" := by
  refine ⟨?_, ?_, ?_⟩
  · intro r
    rcases r with ⟨bs, c, bsp, dm, dp, hs, conf⟩
    cases bs <;> cases dm <;>
      simp [selectDiseaseBasedOnAnalysis, selectDiseaseSpec, comprehensiveDiseaseNames]
  · with_unfolding_all decide
  · with_unfolding_all decide

/-- Claim C7: the Condition Classifier and the urgency classifier disagree
near boundary values — the concrete analysis result with
`healthScore = 72`, `hasBlackSpots = true` and `blackSpotPercentage = 5` is
classified `mild_damage` by `determineOverallCondition` while
`assessPlantHealth` places it in the medium-urgency (moderate) bucket. -/
theorem C7_classifier_disagreement :
    resultC7.healthScore = 72 ∧ resultC7.hasBlackSpots = true ∧
    resultC7.blackSpotPercentage ≥ 5 ∧
    determineOverallCondition resultC7.healthScore resultC7.hasBlackSpots resultC7.hasDamage =
      Condition.mild_damage ∧
    (assessPlantHealth resultC7).urgency = Urgency.medium := by
  with_unfolding_all decide

/-- Claim C8: with `hasBlackSpots`, `hasDamage` and `damagePercentage`
fixed, the Health Scorer is monotone non-increasing in
`blackSpotPercentage`: for `p1 ≤ p2` the score at `p2` is at most the score
at `p1` (for any spot counts). -/
theorem C8_health_score_monotone (hasBS hasDm : Bool) (c1 c2 : ℤ) (dp p1 p2 : ℚ)
    (h : p1 ≤ p2) :
    calculateHealthScore ⟨hasBS, c2, p2⟩ ⟨hasDm, dp⟩ ≤
      calculateHealthScore ⟨hasBS, c1, p1⟩ ⟨hasDm, dp⟩ := by
  have hmin : min (p1 * 3) 40 ≤ min (p2 * 3) 40 := min_le_min (by linarith) le_rfl
  simp only [calculateHealthScore]
  split_ifs
  all_goals first
  | (apply max_le_max le_rfl; apply round_mono_rat; linarith)
  | (exfalso
     obtain ⟨hp5, hd10⟩ := ‹p1 > 5 ∧ dp > 10›
     exact absurd ⟨by linarith, hd10⟩ ‹¬(p2 > 5 ∧ dp > 10)›)

/-- Claim C8 witness: monotonicity at `p1 = 1 ≤ 2 = p2` with spots present
and no damage. -/
theorem C8_health_score_monotone_witness :
    (1:ℚ) ≤ 2 ∧
    calculateHealthScore ⟨true, 1, 2⟩ ⟨false, 0⟩ ≤ calculateHealthScore ⟨true, 1, 1⟩ ⟨false, 0⟩ :=
  ⟨by norm_num, C8_health_score_monotone true false 1 1 0 1 2 (by norm_num)⟩

/-- Claim C5, counterexample: `hasBlackSpots` does NOT hold iff the
(two-decimal-rounded) reported percentage exceeds 0.1 — on a 32×30 bitmap
with exactly one black pixel the unrounded percentage is 5/48 ≈ 0.104, so
`hasBlackSpots` is true, while the reported percentage rounds to exactly
0.10, which does not exceed 0.1. -/
theorem C5_threshold_uses_unrounded_percentage :
    (detectBlackSpots imgRoundBS).hasBlackSpots = true ∧
    ¬((detectBlackSpots imgRoundBS).percentage > 0.1) := by
  with_unfolding_all decide

/-- Claim C5, amended: black-spot detection is exactly as the claim words
it — per-pixel predicate `brightness < 60 ∧ colorVariation < 30`,
`blackSpotPercentage = 100 * blackSpotPixelCount / totalPixels` rounded to
two decimals, `blackSpotCount = max(1, ceil(count / (width * 0.02)))` when
spots are present and 0 otherwise — except that `hasBlackSpots` is decided
on the unrounded percentage; consequently an image with zero matching
pixels has `hasBlackSpots = false` and `blackSpotCount = 0`. -/
theorem C5_black_spot_detection :
    (∀ img : Img, detectBlackSpots img = detectBlackSpotsSpecAmended img) ∧
    (∀ img : Img, blackSpotPixels img = 0 →
      (detectBlackSpots img).hasBlackSpots = false ∧ (detectBlackSpots img).count = 0) := by
  constructor
  · intro img
    have hcount : ((List.range (img.width * img.height)).countP fun i =>
        decide (((img.pix i).r + (img.pix i).g + (img.pix i).b : ℚ) / 3 < 60 ∧
          |((img.pix i).r : ℚ) - (img.pix i).g| + |((img.pix i).g : ℚ) - (img.pix i).b| +
            |((img.pix i).b : ℚ) - (img.pix i).r| < 30)) = blackSpotPixels img := by
      unfold blackSpotPixels totalPixels isBlackSpotPixel brightness colorVariation
      rfl
    have hraw : 100 * (blackSpotPixels img : ℚ) / ((img.width * img.height : ℕ) : ℚ) =
        rawBlackSpotPercentage img := by
      unfold rawBlackSpotPercentage totalPixels
      ring
    simp only [detectBlackSpots, detectBlackSpotsSpecAmended, hcount, hraw]
  · intro img h
    constructor
    · simp [detectBlackSpots, rawBlackSpotPercentage, h]
      norm_num
    · simp [detectBlackSpots, rawBlackSpotPercentage, h]
      norm_num

/-- Claim C5 witness: the 1×1 mid-gray bitmap has no matching pixel, no
black spots and spot count 0. -/
theorem C5_black_spot_detection_witness :
    blackSpotPixels imgGray = 0 ∧
    ((detectBlackSpots imgGray).hasBlackSpots = false ∧ (detectBlackSpots imgGray).count = 0) :=
  ⟨by with_unfolding_all decide, C5_black_spot_detection.2 imgGray (by with_unfolding_all decide)⟩

/-- Claim C6, counterexample: `hasDamage` does NOT hold iff the
(two-decimal-rounded) reported percentage exceeds 0.5 — on a 199×1 bitmap
with exactly one yellowing pixel the unrounded percentage is
100/199 ≈ 0.5025, so `hasDamage` is true, while the reported percentage
rounds to exactly 0.50, which does not exceed 0.5. -/
theorem C6_threshold_uses_unrounded_percentage :
    (assessDamage imgRoundDm).hasDamage = true ∧
    ¬((assessDamage imgRoundDm).percentage > 0.5) := by
  with_unfolding_all decide

/-- Claim C6, amended: damage assessment is exactly as the claim words it —
the tally increments once per matched condition over the four independent
additive conditions (yellowing, browning, wilting, white/silver patches),
so a pixel matching more than one is counted once per match, and
`damagePercentage = 100 * damagedPixelTally / totalPixels` rounded to two
decimals — except that `hasDamage` is decided on the unrounded
percentage. -/
theorem C6_damage_assessment (img : Img) : assessDamage img = assessDamageSpecAmended img := by
  have htally : (((List.range (img.width * img.height)).map fun i =>
      (if ((img.pix i).r : ℚ) > 180 ∧ ((img.pix i).g : ℚ) > 150 ∧ ((img.pix i).b : ℚ) < 100 ∧
          (((img.pix i).r : ℚ) + (img.pix i).g + (img.pix i).b) / 3 > 150 then 1 else 0) +
      (if ((img.pix i).r : ℚ) > 100 ∧ ((img.pix i).r : ℚ) < 180 ∧ ((img.pix i).g : ℚ) > 50 ∧
          ((img.pix i).g : ℚ) < 130 ∧ ((img.pix i).b : ℚ) < 80 ∧
          (((img.pix i).r : ℚ) + (img.pix i).g + (img.pix i).b) / 3 < 150 then 1 else 0) +
      (if ((img.pix i).g : ℚ) < (img.pix i).r * 0.7 ∧ ((img.pix i).g : ℚ) < (img.pix i).b * 0.8 ∧
          (((img.pix i).r : ℚ) + (img.pix i).g + (img.pix i).b) / 3 < 120 then 1 else 0) +
      (if (((img.pix i).r : ℚ) + (img.pix i).g + (img.pix i).b) / 3 > 200 ∧
          |((img.pix i).r : ℚ) - (img.pix i).g| < 20 ∧
          |((img.pix i).g : ℚ) - (img.pix i).b| < 20 then 1 else 0)).sum : ℕ) =
      damagedPixels img := by
    unfold damagedPixels totalPixels damageMatches isYellowing isBrowning isWilting isWhitePatch
      brightness
    rfl
  have hraw : 100 * (damagedPixels img : ℚ) / ((img.width * img.height : ℕ) : ℚ) =
      rawDamagePercentage img := by
    unfold rawDamagePercentage totalPixels
    ring
  simp only [assessDamage, assessDamageSpecAmended, htally, hraw]

/-- Claim C9: every analysis result whose overall condition is `healthy`
makes the Disease Selector return the synthesized Healthy Plant entry with
confidence 0.95 (the healthy premises falsify the three disease branches),
and the converse fails: the record with `hasBlackSpots = true`,
`blackSpotPercentage = 2` and `healthScore = 85` also gets the Healthy
Plant entry while its overall condition is `mild_damage`. -/
theorem C9_healthy_selects_healthy_entry :
    (∀ r : AnalysisResult,
      determineOverallCondition r.healthScore r.hasBlackSpots r.hasDamage = Condition.healthy →
      selectDiseaseBasedOnAnalysis r = ("Healthy Plant", 0.95)) ∧
    (determineOverallCondition resultC9.healthScore resultC9.hasBlackSpots resultC9.hasDamage =
        Condition.mild_damage ∧
      selectDiseaseBasedOnAnalysis resultC9 = ("Healthy Plant", 0.95)) := by
  constructor
  · intro r h
    have hfirst : r.healthScore ≥ 85 ∧ (!r.hasBlackSpots) ∧ (!r.hasDamage) := by
      by_contra hc
      unfold determineOverallCondition at h
      rw [if_neg hc] at h
      split_ifs at h
    obtain ⟨h85, hbs, hdm⟩ := hfirst
    have hbs' : r.hasBlackSpots = false := by simpa using hbs
    have hdm' : r.hasDamage = false := by simpa using hdm
    unfold selectDiseaseBasedOnAnalysis
    rw [if_neg (by simp [hbs']), if_neg (by simp [hdm']),
      if_neg (by omega), if_pos h85]
  · constructor
    · with_unfolding_all decide
    · with_unfolding_all decide

/-- Claim C9 witness: a record with score 90 and no flags is classified
healthy and receives the Healthy Plant entry. -/
theorem C9_healthy_selects_healthy_entry_witness :
    determineOverallCondition resultHealthy.healthScore resultHealthy.hasBlackSpots
        resultHealthy.hasDamage = Condition.healthy ∧
    selectDiseaseBasedOnAnalysis resultHealthy = ("Healthy Plant", 0.95) :=
  ⟨by with_unfolding_all decide,
    C9_healthy_selects_healthy_entry.1 resultHealthy (by with_unfolding_all decide)⟩

/-- Claim C10: for every bitmap the computed image quality lies in
`[50, 95]` — the score starts at a base of 50, adds only nonnegative
components capped at 30 (sharpness) and 20 (contrast), and is finally
capped at 95. -/
theorem C10_image_quality_bounds (img : Img) :
    50 ≤ assessImageQuality img ∧ assessImageQuality img ≤ 95 := by
  unfold assessImageQuality
  have ha : 0 ≤ min (((edgePixels img : ℚ) / (totalPixels img : ℚ)) * 100 * 2) 30 :=
    le_min (by positivity) (by norm_num)
  have hb : 0 ≤ min (totalContrast img / (totalPixels img : ℚ) / 5) 20 :=
    le_min (div_nonneg (div_nonneg (totalContrast_nonneg img) (by positivity)) (by norm_num))
      (by norm_num)
  constructor
  · exact le_min (by linarith) (by norm_num)
  · exact min_le_right _ _
